import Mathlib

set_option maxRecDepth 8000

/-!
Shallow embedding of `src/main.rs` of the error-handling-and-dependency-injection
service: a two-route axum web service with an injected user repository
(`ExampleUserRepo`) and a domain-error-to-HTTP-response mapping
(`AppError::into_response`).  A UUID is a 128-bit value, modelled as
`Fin (2 ^ 128)`; its canonical rendering and the uuid crate's parser are
embedded explicitly so that boundary decoding can be reasoned about.
-/

/-- A 128-bit universally unique identifier (`uuid::Uuid`). -/
abbrev Uuid := Fin (2 ^ 128)

/-- Lowercase hexadecimal digit character for a nibble value, as used by the
uuid crate's canonical lowercase encoding (`0`..`9`, `a`..`f`). -/
def hexChar (n : Nat) : Char :=
  if n < 10 then Char.ofNat (48 + n) else Char.ofNat (87 + n)

/-- Writes the low `d` nibbles of `n`, most significant first, onto `acc`. -/
def toHexAux : Nat → Nat → List Char → List Char
  | 0, _, acc => acc
  | d + 1, n, acc => toHexAux d (n / 16) (hexChar (n % 16) :: acc)

/-- Canonical hyphenated lowercase rendering of a UUID (`Uuid::to_string`,
digit groups 8-4-4-4-12). -/
def Uuid.toString (u : Uuid) : String :=
  String.mk (toHexAux 8 (u.val / 2 ^ 96) [] ++
    '-' :: (toHexAux 4 (u.val / 2 ^ 80) [] ++
      '-' :: (toHexAux 4 (u.val / 2 ^ 64) [] ++
        '-' :: (toHexAux 4 (u.val / 2 ^ 48) [] ++
          '-' :: toHexAux 12 u.val []))))

/-- Value of an ASCII hexadecimal digit (`0-9`, `a-f`, `A-F`), the digits
accepted by the uuid crate's parser. -/
def hexDigit? (c : Char) : Option Nat :=
  if 48 ≤ c.toNat ∧ c.toNat ≤ 57 then some (c.toNat - 48)
  else if 97 ≤ c.toNat ∧ c.toNat ≤ 102 then some (c.toNat - 87)
  else if 65 ≤ c.toNat ∧ c.toNat ≤ 70 then some (c.toNat - 55)
  else none

/-- Reads exactly `d` hex digits, most significant first, into the
accumulator; returns the value and the remaining characters. -/
def readHexAux : Nat → List Char → Nat → Option (Nat × List Char)
  | 0, cs, acc => some (acc, cs)
  | _ + 1, [], _ => none
  | d + 1, c :: cs, acc =>
    match hexDigit? c with
    | some v => readHexAux d cs (16 * acc + v)
    | none => none

/-- Consumes one hyphen separator. -/
def expectHyphen : List Char → Option (List Char)
  | c :: cs => if c = '-' then some cs else none
  | [] => none

/-- The uuid crate's `parse_hyphenated`: exactly 36 characters in the
8-4-4-4-12 layout, hyphens at positions 8, 13, 18 and 23. -/
def parseHyphenatedChars (cs : List Char) : Option Nat := do
  let (g1, cs) ← readHexAux 8 cs 0
  let cs ← expectHyphen cs
  let (g2, cs) ← readHexAux 4 cs 0
  let cs ← expectHyphen cs
  let (g3, cs) ← readHexAux 4 cs 0
  let cs ← expectHyphen cs
  let (g4, cs) ← readHexAux 4 cs 0
  let cs ← expectHyphen cs
  let (g5, cs) ← readHexAux 12 cs 0
  match cs with
  | [] => some (g1 * 2 ^ 96 + g2 * 2 ^ 80 + g3 * 2 ^ 64 + g4 * 2 ^ 48 + g5)
  | _ => none

/-- The uuid crate's `Uuid::try_parse`, which backs `FromStr` and hence both
axum's `Path<Uuid>` extractor and serde decoding: accepts the simple (32
hex digits), hyphenated (36), braced (38) and urn (45) forms. -/
def Uuid.tryParse (s : String) : Option Uuid :=
  let cs := s.data
  let n? : Option Nat :=
    if cs.length = 32 then
      match readHexAux 32 cs 0 with
      | some (n, []) => some n
      | _ => none
    else if cs.length = 36 then parseHyphenatedChars cs
    else if cs.length = 38 then
      match cs with
      | c :: rest =>
        if c = Char.ofNat 123 ∧ rest.getLast? = some (Char.ofNat 125) then
          parseHyphenatedChars rest.dropLast
        else none
      | [] => none
    else if cs.length = 45 then
      match cs with
      | 'u' :: 'r' :: 'n' :: ':' :: 'u' :: 'u' :: 'i' :: 'd' :: ':' :: rest =>
        parseHyphenatedChars rest
      | _ => none
    else none
  match n? with
  | some n => if h : n < 2 ^ 128 then some ⟨n, h⟩ else none
  | none => none

/-- `UserRepoError`: the closed set of domain error kinds. -/
inductive UserRepoError where
  | NotFound
  | InvalidUsername
deriving DecidableEq, Repr

/-- `AppError`: the handler-level error type, wrapping repository errors via
its `From<UserRepoError>` conversion. -/
inductive AppError where
  | UserRepo (e : UserRepoError)
deriving DecidableEq, Repr

/-- The `User` entity: identifier and username. -/
structure User where
  id : Uuid
  username : String
deriving DecidableEq, Repr

/-- `CreateUser`: the decoded body of `POST /users`. -/
structure CreateUser where
  username : String
deriving DecidableEq, Repr

/-- Minimal JSON values: enough for the bodies this service produces. -/
inductive Json where
  | str (s : String)
  | obj (fields : List (String × Json))

/-- An HTTP response: status code and JSON body. -/
structure Response where
  status : Nat
  body : Json

/-- `AppError::into_response`: maps each domain error kind to its status code
and uniform JSON error envelope.  (The `tracing::debug!` call in the source is
a log side effect with no bearing on the response.) -/
def AppError.intoResponse : AppError → Response
  | AppError.UserRepo UserRepoError.NotFound =>
    ⟨404, Json.obj [("error", Json.str "user not found")]⟩
  | AppError.UserRepo UserRepoError.InvalidUsername =>
    ⟨400, Json.obj [("error", Json.str "invalid username")]⟩

/-- serde serialization of `User` (`derive Serialize`): the id is rendered in
its canonical string form. -/
def User.toJson (u : User) : Json :=
  Json.obj [("id", Json.str (Uuid.toString u.id)), ("username", Json.str u.username)]

/-- `ExampleUserRepo::find`: renders the requested id as text and treats it as
found unless the first character of the rendering is the literal `a`
(`s.chars().next().map_or(false, |c| c != 'a')`). -/
def ExampleUserRepo.find (id : Uuid) : Except UserRepoError User :=
  let s := Uuid.toString id
  if Option.getD (Option.map (fun c => c != 'a') s.data.head?) false then
    Except.ok { id := id, username := "example" }
  else
    Except.error UserRepoError.NotFound

/-- `ExampleUserRepo::create`: ignores the supplied username and returns a
user with a freshly generated identifier and the fixed name "new example".
The random draw of `Uuid::new_v4()` is modelled by the explicit `gen`
parameter (nondeterminism as a parameter). -/
def ExampleUserRepo.create (gen : Uuid) (_params : CreateUser) : Except UserRepoError User :=
  Except.ok { id := gen, username := "new example" }

/-- Outcome of serving a request: either the extractor rejected the raw input
at the boundary, before any handler or repository code ran, or a handler
produced a response. -/
inductive RouteResult where
  | boundaryRejection
  | response (r : Response)

/-- The `GET /users/:user_id` pipeline: axum's `Path<Uuid>` extraction
followed by the `users_show` handler, which calls the repository's `find` and
maps errors through `AppError::into_response`.  The second component records
the identifiers the repository's `find` was invoked on, so that "the
repository is never reached" is an observable fact of the model. -/
def users_show (seg : String) : RouteResult × List Uuid :=
  match Uuid.tryParse seg with
  | none => (RouteResult.boundaryRejection, [])
  | some id =>
    match ExampleUserRepo.find id with
    | Except.ok user => (RouteResult.response ⟨200, User.toJson user⟩, [id])
    | Except.error e =>
      (RouteResult.response (AppError.intoResponse (AppError.UserRepo e)), [id])

/-- The `POST /users` handler after successful JSON decoding: calls the
repository's `create` and serializes the result or maps the error. -/
def users_create (gen : Uuid) (params : CreateUser) : Response :=
  match ExampleUserRepo.create gen params with
  | Except.ok user => ⟨200, User.toJson user⟩
  | Except.error e => AppError.intoResponse (AppError.UserRepo e)

theorem toHexAux_cons (d : Nat) : ∀ (m : Nat) (acc : List Char),
    toHexAux (d + 1) m acc = hexChar (m / 16 ^ d % 16) :: toHexAux d m acc := by
  induction d with
  | zero => intro m acc; simp [toHexAux]
  | succ d ih =>
    intro m acc
    show toHexAux (d + 1) (m / 16) (hexChar (m % 16) :: acc) = _
    rw [ih]
    show hexChar (m / 16 / 16 ^ d % 16) :: toHexAux (d + 1) m acc =
      hexChar (m / 16 ^ (d + 1) % 16) :: toHexAux (d + 1) m acc
    rw [Nat.div_div_eq_div_mul, show 16 * 16 ^ d = 16 ^ (d + 1) by ring]

theorem length_toHexAux (d : Nat) : ∀ (m : Nat) (acc : List Char),
    (toHexAux d m acc).length = d + acc.length := by
  induction d with
  | zero => intro m acc; simp [toHexAux]
  | succ d ih =>
    intro m acc
    show (toHexAux d (m / 16) (hexChar (m % 16) :: acc)).length = _
    rw [ih]
    simp
    omega

theorem hexDigit?_hexChar_fin : ∀ v : Fin 16, hexDigit? (hexChar v.val) = some v.val := by
  decide

theorem hexDigit?_hexChar (m : Nat) : hexDigit? (hexChar (m % 16)) = some (m % 16) :=
  hexDigit?_hexChar_fin ⟨m % 16, Nat.mod_lt _ (by norm_num)⟩

theorem readHexAux_toHexAux (d : Nat) : ∀ (m a : Nat) (rest : List Char),
    readHexAux d (toHexAux d m [] ++ rest) a = some (a * 16 ^ d + m % 16 ^ d, rest) := by
  induction d with
  | zero => intro m a rest; simp [toHexAux, readHexAux, Nat.mod_one]
  | succ d ih =>
    intro m a rest
    rw [toHexAux_cons]
    show readHexAux (d + 1) (hexChar (m / 16 ^ d % 16) :: (toHexAux d m [] ++ rest)) a = _
    simp only [readHexAux, hexDigit?_hexChar (m / 16 ^ d)]
    rw [ih]
    have harith : (16 * a + m / 16 ^ d % 16) * 16 ^ d + m % 16 ^ d =
        a * 16 ^ (d + 1) + m % 16 ^ (d + 1) := by
      rw [pow_succ, Nat.mod_mul]
      ring
    rw [harith]

theorem readHexAux_toHexAux_nil (d m a : Nat) :
    readHexAux d (toHexAux d m []) a = some (a * 16 ^ d + m % 16 ^ d, []) := by
  have h := readHexAux_toHexAux d m a []
  rwa [List.append_nil] at h

theorem toString_data (u : Uuid) :
    (Uuid.toString u).data =
      toHexAux 8 (u.val / 2 ^ 96) [] ++
        '-' :: (toHexAux 4 (u.val / 2 ^ 80) [] ++
          '-' :: (toHexAux 4 (u.val / 2 ^ 64) [] ++
            '-' :: (toHexAux 4 (u.val / 2 ^ 48) [] ++
              '-' :: toHexAux 12 u.val []))) := rfl

theorem length_toString_data (u : Uuid) : (Uuid.toString u).data.length = 36 := by
  rw [toString_data]
  simp [length_toHexAux]

theorem parseHyphenated_toString (u : Uuid) :
    parseHyphenatedChars (Uuid.toString u).data = some u.val := by
  rw [toString_data]
  simp only [parseHyphenatedChars, List.cons_append, readHexAux_toHexAux,
    readHexAux_toHexAux_nil, Option.bind_eq_bind, Option.some_bind, expectHyphen, reduceIte]
  have hlt := u.isLt
  congr 1
  norm_num
  omega

theorem head?_toString (u : Uuid) :
    (Uuid.toString u).data.head? = some (hexChar (u.val / 2 ^ 124 % 16)) := by
  rw [toString_data, toHexAux_cons]
  show some (hexChar (u.val / 2 ^ 96 / 16 ^ 7 % 16)) = _
  rw [Nat.div_div_eq_div_mul]
  norm_num

theorem tryParse_toString (u : Uuid) : Uuid.tryParse (Uuid.toString u) = some u := by
  have hlen := length_toString_data u
  have hparse := parseHyphenated_toString u
  simp only [Uuid.tryParse, hlen, hparse]
  norm_num [u.isLt]
  intro h
  exact absurd u.isLt (Nat.not_lt.mpr h)

theorem sanity_toString_zero :
    Uuid.toString ⟨0, by norm_num⟩ = "00000000-0000-0000-0000-000000000000" := by
  decide

theorem sanity_tryParse_concrete :
    Uuid.tryParse "bd8197e0-8a30-4e7c-9c93-972fd13ed4c8" =
      some ⟨0xbd8197e08a304e7c9c93972fd13ed4c8, by norm_num⟩ := by
  decide

theorem sanity_users_show_found :
    (users_show "bd8197e0-8a30-4e7c-9c93-972fd13ed4c8").1 =
      RouteResult.response
        ⟨200, Json.obj [("id", Json.str "bd8197e0-8a30-4e7c-9c93-972fd13ed4c8"),
          ("username", Json.str "example")]⟩ := by
  rfl

theorem sanity_users_show_not_found :
    (users_show "ad8197e0-8a30-4e7c-9c93-972fd13ed4c8").1 =
      RouteResult.response ⟨404, Json.obj [("error", Json.str "user not found")]⟩ := by
  rfl

/-- C1: for every valid 128-bit identifier, `ExampleUserRepo.find` succeeds —
and the `GET /users/:user_id` pipeline answers `200 OK` with the serialized
user — exactly when the canonical string rendering of the identifier does not
start with the character `a`; when it does start with `a`, `find` returns
`NotFound` and the route answers `404 Not Found` with body
`error: user not found`. -/
theorem C1_find_succeeds_iff_rendering_not_a (u : Uuid) :
    ((Uuid.toString u).data.head? ≠ some 'a' →
      ExampleUserRepo.find u = Except.ok ⟨u, "example"⟩ ∧
      (users_show (Uuid.toString u)).1 =
        RouteResult.response ⟨200, User.toJson ⟨u, "example"⟩⟩) ∧
    ((Uuid.toString u).data.head? = some 'a' →
      ExampleUserRepo.find u = Except.error UserRepoError.NotFound ∧
      (users_show (Uuid.toString u)).1 =
        RouteResult.response ⟨404, Json.obj [("error", Json.str "user not found")]⟩) := by
  have hh := head?_toString u
  constructor
  · intro hne
    have hc : (hexChar (u.val / 2 ^ 124 % 16) != 'a') = true := by
      rw [bne_iff_ne]
      intro e
      exact hne (by rw [hh, e])
    have hfind : ExampleUserRepo.find u = Except.ok ⟨u, "example"⟩ := by
      simp only [ExampleUserRepo.find, hh, Option.map_some', Option.getD_some, hc, if_true]
    exact ⟨hfind, by simp [users_show, tryParse_toString, hfind]⟩
  · intro heq
    have hac : hexChar (u.val / 2 ^ 124 % 16) = 'a' :=
      Option.some.inj (hh.symm.trans heq)
    have hc : (hexChar (u.val / 2 ^ 124 % 16) != 'a') = false := by
      rw [hac]
      decide
    have hfind : ExampleUserRepo.find u = Except.error UserRepoError.NotFound := by
      simp only [ExampleUserRepo.find, hh, Option.map_some', Option.getD_some, hc,
        Bool.false_eq_true, if_false]
    refine ⟨hfind, ?_⟩
    simp [users_show, tryParse_toString, hfind, AppError.intoResponse]

/-- C1 witness: the identifier 0 renders as a string starting with `0`, so
`find` succeeds; the identifier with top nibble `0xa` renders as a string
starting with `a`, so `find` reports `NotFound`. -/
theorem C1_witness :
    ExampleUserRepo.find ⟨0, by norm_num⟩ = Except.ok ⟨⟨0, by norm_num⟩, "example"⟩ ∧
    ExampleUserRepo.find ⟨10 * 2 ^ 124, by norm_num⟩ = Except.error UserRepoError.NotFound :=
  ⟨((C1_find_succeeds_iff_rendering_not_a ⟨0, by norm_num⟩).1 (by decide)).1,
   ((C1_find_succeeds_iff_rendering_not_a ⟨10 * 2 ^ 124, by norm_num⟩).2 (by decide)).1⟩

/-- C2: the error-to-response mapping is total on the closed error-kind set:
`NotFound` maps to status 404 with body `error: user not found`,
`InvalidUsername` maps to status 400 with body `error: invalid username`,
and every `AppError` value maps to one of exactly these two responses. -/
theorem C2_intoResponse_total_mapping :
    AppError.intoResponse (AppError.UserRepo UserRepoError.NotFound) =
      ⟨404, Json.obj [("error", Json.str "user not found")]⟩ ∧
    AppError.intoResponse (AppError.UserRepo UserRepoError.InvalidUsername) =
      ⟨400, Json.obj [("error", Json.str "invalid username")]⟩ ∧
    ∀ e : AppError,
      AppError.intoResponse e = ⟨404, Json.obj [("error", Json.str "user not found")]⟩ ∨
      AppError.intoResponse e = ⟨400, Json.obj [("error", Json.str "invalid username")]⟩ := by
  refine ⟨rfl, rfl, ?_⟩
  rintro ⟨e⟩
  cases e
  · exact Or.inl rfl
  · exact Or.inr rfl

/-- C3: for every decoded `CreateUser` body and every generated identifier,
`ExampleUserRepo.create` succeeds with exactly the generated (well-formed
128-bit) identifier, whose canonical rendering has 36 characters, and the
fixed username "new example" regardless of the supplied username; the
`POST /users` handler answers `200 OK` with that body. -/
theorem C3_create_succeeds_fresh_id_fixed_name (gen : Uuid) (params : CreateUser) :
    ExampleUserRepo.create gen params = Except.ok ⟨gen, "new example"⟩ ∧
    gen.val < 2 ^ 128 ∧
    (Uuid.toString gen).length = 36 ∧
    users_create gen params =
      ⟨200, Json.obj [("id", Json.str (Uuid.toString gen)),
        ("username", Json.str "new example")]⟩ := by
  refine ⟨rfl, gen.isLt, ?_, rfl⟩
  show (Uuid.toString gen).data.length = 36
  exact length_toString_data gen

/-- C4: every `User` successfully returned by `find` or by `create` has a
well-formed 128-bit identifier and a non-empty username. -/
theorem C4_returned_user_invariant :
    (∀ (id : Uuid) (u : User), ExampleUserRepo.find id = Except.ok u →
      u.id.val < 2 ^ 128 ∧ u.username ≠ "") ∧
    (∀ (gen : Uuid) (params : CreateUser) (u : User),
      ExampleUserRepo.create gen params = Except.ok u →
      u.id.val < 2 ^ 128 ∧ u.username ≠ "") := by
  constructor
  · intro id u h
    simp only [ExampleUserRepo.find] at h
    split at h
    · injection h with h'
      subst h'
      refine ⟨id.isLt, ?_⟩
      show ("example" : String) ≠ ""
      decide
    · exact Except.noConfusion h
  · intro gen params u h
    simp only [ExampleUserRepo.create] at h
    injection h with h'
    subst h'
    refine ⟨gen.isLt, ?_⟩
    show ("new example" : String) ≠ ""
    decide

/-- C4 witness: the invariant instantiated at the users returned by `find` and
`create` on the identifier 0. -/
theorem C4_witness :
    ((⟨⟨0, by norm_num⟩, "example"⟩ : User).id.val < 2 ^ 128 ∧
      (⟨⟨0, by norm_num⟩, "example"⟩ : User).username ≠ "") ∧
    ((⟨⟨0, by norm_num⟩, "new example"⟩ : User).id.val < 2 ^ 128 ∧
      (⟨⟨0, by norm_num⟩, "new example"⟩ : User).username ≠ "") :=
  ⟨C4_returned_user_invariant.1 ⟨0, by norm_num⟩ ⟨⟨0, by norm_num⟩, "example"⟩ (by rfl),
   C4_returned_user_invariant.2 ⟨0, by norm_num⟩ ⟨"x"⟩ ⟨⟨0, by norm_num⟩, "new example"⟩ rfl⟩

/-- C5: `InvalidUsername` is unreachable in the reference implementation:
`find` either succeeds or reports `NotFound`, never `InvalidUsername`, and
`create` always succeeds (with the generated id and the fixed name). -/
theorem C5_invalidUsername_unreachable :
    (∀ id : Uuid, ExampleUserRepo.find id ≠ Except.error UserRepoError.InvalidUsername) ∧
    (∀ id : Uuid, ExampleUserRepo.find id = Except.ok ⟨id, "example"⟩ ∨
      ExampleUserRepo.find id = Except.error UserRepoError.NotFound) ∧
    (∀ (gen : Uuid) (params : CreateUser),
      ExampleUserRepo.create gen params = Except.ok ⟨gen, "new example"⟩) := by
  refine ⟨?_, ?_, fun gen params => rfl⟩
  · intro id h
    simp only [ExampleUserRepo.find] at h
    split at h
    · exact Except.noConfusion h
    · exact UserRepoError.noConfusion (Except.error.inj h)
  · intro id
    simp only [ExampleUserRepo.find]
    split
    · exact Or.inl rfl
    · exact Or.inr rfl

/-- C5 witness: instantiation at the identifier 0 and an arbitrary request. -/
theorem C5_witness :
    ExampleUserRepo.find ⟨0, by norm_num⟩ ≠ Except.error UserRepoError.InvalidUsername ∧
    ExampleUserRepo.create ⟨0, by norm_num⟩ ⟨"x"⟩ =
      Except.ok ⟨⟨0, by norm_num⟩, "new example"⟩ :=
  ⟨C5_invalidUsername_unreachable.1 ⟨0, by norm_num⟩,
   C5_invalidUsername_unreachable.2.2 ⟨0, by norm_num⟩ ⟨"x"⟩⟩

/-- C6: non-idempotence of creation: two `create` calls whose freshly
generated identifiers are distinct (freshness of `Uuid::new_v4` modelled as
distinctness of the drawn values) return users with different identifiers but
identical usernames. -/
theorem C6_create_non_idempotent (g1 g2 : Uuid) (p1 p2 : CreateUser)
    (hfresh : g1 ≠ g2) (u1 u2 : User)
    (h1 : ExampleUserRepo.create g1 p1 = Except.ok u1)
    (h2 : ExampleUserRepo.create g2 p2 = Except.ok u2) :
    u1.id ≠ u2.id ∧ u1.username = u2.username := by
  simp only [ExampleUserRepo.create] at h1 h2
  injection h1 with h1'
  injection h2 with h2'
  subst h1'
  subst h2'
  exact ⟨fun e => hfresh e, rfl⟩

/-- C6 witness: two creations drawing the distinct identifiers 0 and 1. -/
theorem C6_witness :
    (⟨⟨0, by norm_num⟩, "new example"⟩ : User).id ≠
      (⟨⟨1, by norm_num⟩, "new example"⟩ : User).id ∧
    (⟨⟨0, by norm_num⟩, "new example"⟩ : User).username =
      (⟨⟨1, by norm_num⟩, "new example"⟩ : User).username :=
  C6_create_non_idempotent ⟨0, by norm_num⟩ ⟨1, by norm_num⟩ ⟨"a"⟩ ⟨"b"⟩ (by decide)
    _ _ rfl rfl

/-- C7: boundary decoding failures never reach the domain: when the path
segment of `GET /users/:user_id` does not parse as a 128-bit identifier, the
pipeline yields the routing layer's own rejection, the repository's `find` is
never invoked (empty invocation trace), and the domain error mapping is never
applied. -/
theorem C7_boundary_never_reaches_repo (seg : String)
    (h : Uuid.tryParse seg = none) :
    users_show seg = (RouteResult.boundaryRejection, []) := by
  simp [users_show, h]

/-- C7 witness: a malformed path segment is rejected at the boundary with no
repository invocation. -/
theorem C7_witness : users_show "not-a-uuid" = (RouteResult.boundaryRejection, []) :=
  C7_boundary_never_reaches_repo "not-a-uuid" (by rfl)

/-- C8: round-trip between `create` and `find`: the canonical rendering of the
identifier of every user returned by `create` parses back as a syntactically
valid 128-bit identifier (to the same value), so a subsequent
`GET /users/:user_id` on it passes boundary decoding and invokes the
repository's `find` on exactly that identifier. -/
theorem C8_create_roundtrip (gen : Uuid) (p : CreateUser) (u : User)
    (_h : ExampleUserRepo.create gen p = Except.ok u) :
    Uuid.tryParse (Uuid.toString u.id) = some u.id ∧
    (users_show (Uuid.toString u.id)).2 = [u.id] := by
  refine ⟨tryParse_toString u.id, ?_⟩
  cases hf : ExampleUserRepo.find u.id <;>
    simp [users_show, tryParse_toString, hf]

/-- C8 witness: the user created with generated identifier 0. -/
theorem C8_witness :
    Uuid.tryParse (Uuid.toString (⟨⟨0, by norm_num⟩, "new example"⟩ : User).id) =
      some (⟨⟨0, by norm_num⟩, "new example"⟩ : User).id ∧
    (users_show (Uuid.toString (⟨⟨0, by norm_num⟩, "new example"⟩ : User).id)).2 =
      [(⟨⟨0, by norm_num⟩, "new example"⟩ : User).id] :=
  C8_create_roundtrip ⟨0, by norm_num⟩ ⟨"x"⟩ _ rfl

/-- C9: whenever `find` succeeds, the returned user's identifier equals the
requested identifier and the returned username is exactly "example". -/
theorem C9_find_preserves_id_and_username (id : Uuid) (u : User)
    (h : ExampleUserRepo.find id = Except.ok u) :
    u.id = id ∧ u.username = "example" := by
  simp only [ExampleUserRepo.find] at h
  split at h
  · injection h with h'
    subst h'
    exact ⟨rfl, rfl⟩
  · exact Except.noConfusion h

/-- C9 witness: the lookup of identifier 0 succeeds and returns it. -/
theorem C9_witness :
    (⟨⟨0, by norm_num⟩, "example"⟩ : User).id = ⟨0, by norm_num⟩ ∧
    (⟨⟨0, by norm_num⟩, "example"⟩ : User).username = "example" :=
  C9_find_preserves_id_and_username ⟨0, by norm_num⟩ _ (by rfl)

/-- C10: `find` is deterministic: it is a pure function of its identifier
argument (the embedding of `ExampleUserRepo::find`, which holds no state and
performs no I/O beyond logging), so two calls on equal identifiers return
the same result. -/
theorem C10_find_deterministic (id1 id2 : Uuid) (h : id1 = id2) :
    ExampleUserRepo.find id1 = ExampleUserRepo.find id2 := by
  rw [h]

/-- C10 witness: two calls on the identifier 5 agree. -/
theorem C10_witness :
    ExampleUserRepo.find ⟨5, by norm_num⟩ = ExampleUserRepo.find ⟨5, by norm_num⟩ :=
  C10_find_deterministic ⟨5, by norm_num⟩ ⟨5, by norm_num⟩ rfl
